import Mathlib

/-!
Shallow embedding of the JtlSync synchronization engine
(`src-tauri/src/sync/{engine,processor,stats}.rs`,
`src-tauri/src/utils/{mapping,format}.rs`, `src-tauri/src/api/jtl.rs`).

Monetary values (`f64` in the source) are modelled as rationals; `i32`
counters as integers (no sync run approaches the overflow bound).
External collaborators (the Joomla database queries of `db/joomla.rs`,
which is referenced by `db/mod.rs` but not present, and the remote HTTP
endpoints) are modelled as oracle parameters supplying their results, in
line with their declared contracts.  Remote calls made by the order
processor are recorded in an explicit trace so that "never invokes"
claims can be stated.
-/

namespace JtlSync

/-! ## JSON values (`serde_json::Value`, restricted to what the engine reads) -/

/-- `serde_json::Value`; numbers are restricted to the integral values the
engine ever inspects (`as_i64`). -/
inductive Json where
  | null : Json
  | bool (b : Bool) : Json
  | num (n : Int) : Json
  | str (s : String) : Json
  | arr (xs : List Json) : Json
  | obj (fields : List (String × Json)) : Json
deriving Repr

/-- `value[key]` on a JSON value: field lookup on objects, `Null` otherwise. -/
def Json.index (v : Json) (key : String) : Json :=
  match v with
  | .obj fields =>
    match fields.lookup key with
    | some w => w
    | none => .null
  | _ => .null

/-- `Value::as_i64`: the number itself for integral numbers, `None` otherwise. -/
def Json.as_i64 (v : Json) : Option Int :=
  match v with
  | .num n => some n
  | _ => none

/-- `Value::as_str`. -/
def Json.as_str (v : Json) : Option String :=
  match v with
  | .str s => some s
  | _ => none

/-! ## Data model (`db/models.rs`, `config/shop.rs`, `error.rs`) -/

/-- `VirtueMartOrder` (db/models.rs).  Monetary `f64` fields are rationals. -/
structure VirtueMartOrder where
  virtuemart_order_id : Int
  order_number : String
  created_on : String
  order_total : ℚ
  company : Option String
  virtuemart_user_id : Option Int
  order_status : Option String
  first_name : Option String
  last_name : Option String
  phone_1 : Option String
  phone_2 : Option String
  address_1 : Option String
  address_2 : Option String
  zip : Option String
  city : Option String
  email : Option String
  virtuemart_paymentmethod_id : Option Int
  virtuemart_shipmentmethod_id : Option Int
  virtuemart_order_userinfo_id : Option Int
  customer_note : Option String
  order_shipment : Option ℚ
  coupon_code : Option String
  coupon_discount : Option ℚ
  virtuemart_country_id : Option Int
  shop_id : Option String
deriving Repr, DecidableEq

/-- `VirtueMartOrderItem` (db/models.rs). -/
structure VirtueMartOrderItem where
  virtuemart_order_item_id : Int
  virtuemart_order_id : Int
  order_item_sku : Option String
  order_item_name : String
  product_quantity : Int
  product_final_price : ℚ
  product_tax : Option ℚ
  product_priceWithoutTax : Option ℚ
deriving Repr, DecidableEq

/-- `JtlAddress` (db/models.rs). -/
structure JtlAddress where
  City : String
  CountryIso : String
  Company : String
  FormOfAddress : String
  Title : String
  FirstName : String
  LastName : String
  Street : String
  Address2 : String
  PostalCode : String
  State : String
  PhoneNumber : String
  MobilePhoneNumber : String
  EmailAddress : String
  Fax : String
deriving Repr, DecidableEq

/-- `JtlOrderItem` (db/models.rs). -/
structure JtlOrderItem where
  Quantity : Int
  SalesPriceGross : Option ℚ
  TaxRate : ℚ
  Name : String
  SalesUnit : String
  SalesPriceNet : Option ℚ
  PurchasePriceNet : Option ℚ
deriving Repr, DecidableEq

/-- `JtlCountry` (db/models.rs). -/
structure JtlCountry where
  CountryISO : String
  CurrencyIso : String
  CurrencyFactor : ℚ
deriving Repr, DecidableEq

/-- `JtlPaymentDetails` (db/models.rs). -/
structure JtlPaymentDetails where
  PaymentMethodId : Int
  CurrencyIso : String
  CurrencyFactor : ℚ
deriving Repr, DecidableEq

/-- `JtlShippingDetails` (db/models.rs). -/
structure JtlShippingDetails where
  ShippingMethodId : Int
  ShippingDate : String
deriving Repr, DecidableEq

/-- `JtlOrder` (db/models.rs). -/
structure JtlOrder where
  CustomerId : Int
  ExternalNumber : String
  CompanyId : Int
  DepartureCountry : JtlCountry
  BillingAddress : JtlAddress
  Shipmentaddress : JtlAddress
  SalesOrderDate : String
  SalesOrderPaymentDetails : JtlPaymentDetails
  SalesOrderShippingDetail : JtlShippingDetails
  Comment : String
  LanguageIso : String
deriving Repr, DecidableEq

/-- `JtlCustomer` (db/models.rs). -/
structure JtlCustomer where
  CustomerGroupId : Int
  BillingAddress : JtlAddress
  InternalCompanyId : Int
  LanguageIso : String
  Shipmentaddress : JtlAddress
  CustomerSince : String
  Number : String
deriving Repr, DecidableEq

/-- `ShopConfig` (config/shop.rs), restricted to the fields the engine reads. -/
structure ShopConfig where
  id : String
  name : String
deriving Repr, DecidableEq

/-- `Error` (error.rs). -/
inductive Error where
  | Database (msg : String)
  | Api (msg : String)
  | Config (msg : String)
  | Sync (msg : String)
  | System (msg : String)
  | NotFound (msg : String)
  | ValidationError (msg : String)
deriving Repr, DecidableEq

/-! ## Mapping tables (`utils/mapping.rs`) -/

/-- `DEFAULT_PAYMENT_METHOD_ID` (utils/mapping.rs line 8). -/
def DEFAULT_PAYMENT_METHOD_ID : Int := 20

/-- `PAYMENT_METHOD_MAPPING` (utils/mapping.rs lines 11-25), as the
association list the `HashMap` is built from (all keys distinct). -/
def PAYMENT_METHOD_MAPPING : List (Int × Int) :=
  [(2, 38), (14, 4), (4, 2), (5, 4), (6, 39), (8, 27), (9, 9), (10, 34), (17, 10)]

/-- `COUNTRY_MAP` (utils/mapping.rs lines 28-43). -/
def COUNTRY_MAP : List (Int × String) :=
  [(81, "DE"), (14, "AT"), (204, "CH"), (21, "BE"), (150, "NL"),
   (105, "IT"), (73, "FR"), (195, "ES"), (222, "GB")]

/-- `get_country_code` (utils/mapping.rs lines 46-48). -/
def get_country_code (id : Int) : Option String :=
  COUNTRY_MAP.lookup id

/-- `map_payment_method` (utils/mapping.rs lines 51-69). -/
def map_payment_method (payment_method_id : Option Int) : Int :=
  match payment_method_id with
  | some id =>
    match PAYMENT_METHOD_MAPPING.lookup id with
    | some jtl_id => jtl_id
    | none => DEFAULT_PAYMENT_METHOD_ID
  | none => DEFAULT_PAYMENT_METHOD_ID

/-- `create_address_object` (utils/mapping.rs lines 72-93). -/
def create_address_object (address_data : VirtueMartOrder) : JtlAddress :=
  { City := address_data.city.getD ""
    CountryIso := (get_country_code (address_data.virtuemart_country_id.getD 0)).getD "DE"
    Company := address_data.company.getD ""
    FormOfAddress := ""
    Title := ""
    FirstName := address_data.first_name.getD ""
    LastName := address_data.last_name.getD ""
    Street := address_data.address_1.getD "" ++
      (match address_data.address_2 with
       | some a => " " ++ a
       | none => "")
    Address2 := ""
    PostalCode := address_data.zip.getD ""
    State := ""
    PhoneNumber := address_data.phone_1.getD ""
    MobilePhoneNumber := address_data.phone_2.getD ""
    EmailAddress := address_data.email.getD ""
    Fax := "" }

/-! ## Date formatting (`utils/format.rs`)

`format_iso_date` parses `created_on` with chrono format string
`"%Y-%m-%d %H:%M:%S"` and re-renders it with `to_rfc3339`; on parse
failure it renders the current UTC time instead.  The parse is modelled
for the canonical zero-padded form of that format (the only form the
source database produces), with real calendar validation as chrono
performs it; `Utc::now()` is an explicit `now` parameter. -/

/-- A wall-clock timestamp, the fields chrono parses out of
`YYYY-MM-DD HH:MM:SS`. -/
structure DateTime where
  year : Nat
  month : Nat
  day : Nat
  hour : Nat
  minute : Nat
  second : Nat
deriving Repr, DecidableEq

/-- Gregorian leap-year rule (chrono calendar validation). -/
def isLeapYear (y : Nat) : Bool :=
  (y % 4 == 0 && y % 100 != 0) || y % 400 == 0

/-- Days in a month (chrono calendar validation). -/
def daysInMonth (y m : Nat) : Nat :=
  if m = 2 then (if isLeapYear y then 29 else 28)
  else if m = 4 ∨ m = 6 ∨ m = 9 ∨ m = 11 then 30
  else 31

/-- Numeric value of a digit character. -/
def digitVal (c : Char) : Nat := c.toNat - 48

/-- Two-digit zero-padded rendering (chrono `%m`/`%d`/`%H`/`%M`/`%S`). -/
def pad2 (n : Nat) : String :=
  if n < 10 then "0" ++ toString n else toString n

/-- Four-digit zero-padded rendering (chrono `%Y` for CE years). -/
def pad4 (n : Nat) : String :=
  if n < 10 then "000" ++ toString n
  else if n < 100 then "00" ++ toString n
  else if n < 1000 then "0" ++ toString n
  else toString n

/-- `DateTime::<Utc>::to_rfc3339` on a whole-second UTC timestamp. -/
def rfc3339 (dt : DateTime) : String :=
  pad4 dt.year ++ "-" ++ pad2 dt.month ++ "-" ++ pad2 dt.day ++ "T" ++
  pad2 dt.hour ++ ":" ++ pad2 dt.minute ++ ":" ++ pad2 dt.second ++ "+00:00"

/-- `NaiveDateTime::parse_from_str(date_str, "%Y-%m-%d %H:%M:%S")` on the
canonical zero-padded form: exactly 19 characters, digits and separators in
place, and a real calendar date-time. -/
def parseCanonical (s : String) : Option DateTime :=
  match s.data with
  | [y1, y2, y3, y4, '-', m1, m2, '-', d1, d2, ' ',
     h1, h2, ':', n1, n2, ':', s1, s2] =>
    if y1.isDigit && y2.isDigit && y3.isDigit && y4.isDigit &&
       m1.isDigit && m2.isDigit && d1.isDigit && d2.isDigit &&
       h1.isDigit && h2.isDigit && n1.isDigit && n2.isDigit &&
       s1.isDigit && s2.isDigit then
      let y := ((digitVal y1 * 10 + digitVal y2) * 10 + digitVal y3) * 10 + digitVal y4
      let m := digitVal m1 * 10 + digitVal m2
      let d := digitVal d1 * 10 + digitVal d2
      let h := digitVal h1 * 10 + digitVal h2
      let mi := digitVal n1 * 10 + digitVal n2
      let sec := digitVal s1 * 10 + digitVal s2
      if 1 ≤ m && m ≤ 12 && 1 ≤ d && d ≤ daysInMonth y m &&
         h ≤ 23 && mi ≤ 59 && sec ≤ 59 then
        some ⟨y, m, d, h, mi, sec⟩
      else
        none
    else
      none
  | _ => none

/-- `format_iso_date` (utils/format.rs lines 4-13); `now` is the value
`Utc::now()` would return on the fallback path. -/
def format_iso_date (now : DateTime) (date_str : String) : String :=
  match parseCanonical date_str with
  | some dt => rfc3339 dt
  | none => rfc3339 now

/-! ## Per-shop stats store (`sync/stats.rs`) -/

/-- `SyncStats` (sync/stats.rs lines 10-21).  `DateTime<Utc>` timestamps are
opaque ticks. -/
structure SyncStats where
  shop_id : String
  total_orders : Int
  synced_orders : Int
  skipped_orders : Int
  error_orders : Int
  last_sync_time : Option Int
  next_scheduled_run : Option Int
  aborted : Bool
  sync_hours : Int
deriving Repr, DecidableEq

/-- `SyncStats::default` (sync/stats.rs lines 23-37). -/
def SyncStats.default : SyncStats :=
  { shop_id := ""
    total_orders := 0
    synced_orders := 0
    skipped_orders := 0
    error_orders := 0
    last_sync_time := none
    next_scheduled_run := none
    aborted := false
    sync_hours := 24 }

/-- The `SYNC_STATS` map, modelled extensionally as keyed lookup. -/
def StatsStore : Type := String → Option SyncStats

/-- `get_shop_stats` (sync/stats.rs lines 64-75). -/
def get_shop_stats (store : StatsStore) (shop_id : String) : SyncStats :=
  match store shop_id with
  | some shop_stats => shop_stats
  | none => { SyncStats.default with shop_id := shop_id }

/-- `update_sync_stats` (sync/stats.rs lines 58-61). -/
def update_sync_stats (store : StatsStore) (stats : SyncStats) : StatsStore :=
  fun k => if k = stats.shop_id then some stats else store k

/-- `reset_shop_stats` (sync/stats.rs lines 114-124): `get_mut` on the entry,
zero the four counters and the aborted flag; absent entries untouched. -/
def reset_shop_stats (store : StatsStore) (shop_id : String) : StatsStore :=
  fun k =>
    if k = shop_id then
      match store shop_id with
      | some shop_stats =>
        some { shop_stats with
                total_orders := 0
                synced_orders := 0
                skipped_orders := 0
                error_orders := 0
                aborted := false }
      | none => none
    else
      store k

/-! ## Remote client (`api/jtl.rs`) -/

mutual

/-- `serde_json` rendering (`Value::to_string`), used by the processor to
turn a response `Id` field into a string. -/
def Json.render : Json → String
  | .null => "null"
  | .bool b => if b then "true" else "false"
  | .num n => toString n
  | .str s => "\"" ++ s ++ "\""
  | .arr xs => "[" ++ String.intercalate "," (Json.renderList xs) ++ "]"
  | .obj fs => "\x7b" ++ String.intercalate "," (Json.renderFields fs) ++ "\x7d"

def Json.renderList : List Json → List String
  | [] => []
  | x :: xs => Json.render x :: Json.renderList xs

def Json.renderFields : List (String × Json) → List String
  | [] => []
  | (k, v) :: fs => ("\"" ++ k ++ "\":" ++ Json.render v) :: Json.renderFields fs

end

/-- An HTTP response as `create_order`/`add_order_items` consume it:
status code, the JSON body if it parses, and the raw text used in error
messages. -/
structure HttpResponse where
  status : Nat
  body : Option Json
  text : String

/-- Oracle for the two POSTs `JtlApiClient::create_order` makes: the
order-header create and the line-item attach.  A `.error` is a transport
failure of `send()`. -/
structure HttpPost where
  postOrder : Except String HttpResponse
  postItems : Except String HttpResponse

/-- `reqwest::StatusCode::is_success`. -/
def is_success (status : Nat) : Bool := 200 ≤ status && status ≤ 299

/-- `JtlApiClient::add_order_items` (api/jtl.rs lines 165-186). -/
def add_order_items (h : HttpPost) (_order_id : Int) (_items : List JtlOrderItem) :
    Except Error Unit :=
  match h.postItems with
  | .error e => .error (.Api ("Request error: " ++ e))
  | .ok resp =>
    if is_success resp.status then
      .ok ()
    else
      .error (.Api ("HTTP error " ++ toString resp.status ++ ": " ++ resp.text))

/-- `JtlApiClient::create_order` (api/jtl.rs lines 128-162).  Returns the
result together with whether the line-item attach request was issued. -/
def create_order_api (h : HttpPost) (_order : JtlOrder) (items : List JtlOrderItem) :
    Except Error Json × Bool :=
  match h.postOrder with
  | .error e => (.error (.Api ("Request error: " ++ e)), false)
  | .ok resp =>
    if is_success resp.status then
      match resp.body with
      | none => (.error (.Api "Response parsing error"), false)
      | some data =>
        match (data.index "Id").as_i64 with
        | none => (.error (.Api "Invalid order ID"), false)
        | some order_id =>
          match add_order_items h order_id items with
          | .error e => (.error e, true)
          | .ok _ => (.ok data, true)
    else
      (.error (.Api ("HTTP error " ++ toString resp.status ++ ": " ++ resp.text)), false)

/-! ## Order processor (`sync/processor.rs`)

The remote client and the Joomla queries (`db/joomla.rs`, declared in
`db/mod.rs` but not present in the tree) enter as oracles supplying each
call's result; every remote call the processor makes is recorded in a
trace. -/

/-- One remote call made by `process_order`. -/
inductive Call where
  | getCustomer (customer_number : String)
  | createCustomer (data : JtlCustomer)
  | checkOrderExists (order_number customer_id : String)
  | createOrder (order : JtlOrder) (items : List JtlOrderItem)
  | setPaymentPaid (order_id : String)
  | setOrderHold (order_id : String)
deriving Repr, DecidableEq

/-- Does a call hit the remote order-create endpoint? -/
def Call.isCreateOrder : Call → Bool
  | .createOrder _ _ => true
  | _ => false

/-- The remote client contract as `process_order` uses it: each operation
maps its arguments to the result the remote system would return. -/
structure JtlClient where
  get_customer_by_id : String → Except Error (Option Json)
  create_customer : JtlCustomer → Except Error Json
  check_order_exists : String → String → Except Error Bool
  create_order : JtlOrder → List JtlOrderItem → Except Error Json
  set_payment_paid : String → Except Error Unit
  set_order_hold : String → Except Error Unit

/-- The source-database queries `process_order` issues (contract of the
absent `db/joomla.rs`, per `db/mod.rs` and the call sites). -/
structure JoomlaDb where
  get_shipping_address : Int → Except Error (Option VirtueMartOrder)
  get_order_items : Int → Except Error (List VirtueMartOrderItem)

/-- `str::parse::<i32>().unwrap_or_default()`: optional sign, all digits,
within `i32` range, else 0. -/
def parse_i32_or_zero (s : String) : Int :=
  let core : Int → List Char → Int := fun sign ds =>
    if !ds.isEmpty && ds.all Char.isDigit then
      let v : Int := sign * ds.foldl (fun a c => a * 10 + (digitVal c : Int)) 0
      if -2147483648 ≤ v ∧ v ≤ 2147483647 then v else 0
    else 0
  match s.data with
  | '+' :: rest => core 1 rest
  | '-' :: rest => core (-1) rest
  | ds => core 1 ds

/-- The customer number derived at sync/processor.rs line 24:
`format!("VM\x7b\x7d", order.virtuemart_order_userinfo_id.unwrap_or_default())`. -/
def customer_number_of (order : VirtueMartOrder) : String :=
  "VM" ++ toString (order.virtuemart_order_userinfo_id.getD 0)

/-- The order number derived at sync/processor.rs line 35:
`format!("VM\x7b\x7d", order.virtuemart_order_id)`. -/
def order_number_of (order : VirtueMartOrder) : String :=
  "VM" ++ toString order.virtuemart_order_id

/-- Customer resolution, sync/processor.rs lines 39-69: look the customer up
by number; reuse its `Id` when found, otherwise create it and take the
response's `Id`. -/
def resolve_customer (now : DateTime) (client : JtlClient) (order : VirtueMartOrder)
    (shipping_address : Option VirtueMartOrder) (customer_number : String) :
    Except Error String × List Call :=
  match client.get_customer_by_id customer_number with
  | .error e => (.error e, [.getCustomer customer_number])
  | .ok (some customer) =>
    (.ok (((customer.index "Id").as_str).getD "0"), [.getCustomer customer_number])
  | .ok none =>
    let billing_address := create_address_object order
    let shipping_addr :=
      match shipping_address with
      | some addr => create_address_object addr
      | none => billing_address
    let customer_data : JtlCustomer :=
      { CustomerGroupId := 1
        BillingAddress := billing_address
        InternalCompanyId := 1
        LanguageIso := "DE"
        Shipmentaddress := shipping_addr
        CustomerSince := format_iso_date now order.created_on
        Number := customer_number }
    match client.create_customer customer_data with
    | .error e => (.error e, [.getCustomer customer_number, .createCustomer customer_data])
    | .ok response =>
      (.ok ((response.index "Id").render),
       [.getCustomer customer_number, .createCustomer customer_data])

/-- The line-item list built at sync/processor.rs lines 125-166: product
lines, then an optional coupon line, then an optional shipping line. -/
def build_order_items (shop : ShopConfig) (order : VirtueMartOrder)
    (items : List VirtueMartOrderItem) : List JtlOrderItem :=
  let all_items : List JtlOrderItem := items.map (fun item =>
    { Quantity := item.product_quantity
      SalesPriceGross := some item.product_final_price
      TaxRate := 19
      Name := "[" ++ shop.name ++ "] " ++ item.order_item_name
      SalesUnit := "stk"
      SalesPriceNet := some (item.product_priceWithoutTax.getD
        (item.product_final_price / (119 / 100)))
      PurchasePriceNet := none })
  let with_coupon : List JtlOrderItem :=
    match order.coupon_code with
    | some coupon_code =>
      if coupon_code ≠ "" then
        let discount := order.coupon_discount.getD 0
        all_items ++
          [{ Quantity := 1
             SalesPriceGross := some discount
             TaxRate := 0
             Name := "[" ++ shop.name ++ "] Coupon: " ++ coupon_code
             SalesUnit := "stk"
             PurchasePriceNet := none
             SalesPriceNet := some discount }]
      else all_items
    | none => all_items
  match order.order_shipment with
  | some shipping_cost =>
    if shipping_cost > 0 then
      with_coupon ++
        [{ Quantity := 1
           SalesPriceGross := some shipping_cost
           TaxRate := 19
           Name := "[" ++ shop.name ++ "] Shipping"
           SalesUnit := "stk"
           SalesPriceNet := some (shipping_cost / (119 / 100))
           PurchasePriceNet := none }]
    else with_coupon
  | none => with_coupon

/-- `process_order` (sync/processor.rs lines 17-187).  `Ok true` = synced,
`Ok false` = skipped because the order already exists; the second component
records the remote calls issued, in order. -/
def process_order (now : DateTime) (client : JtlClient) (joomla_conn : JoomlaDb)
    (order : VirtueMartOrder) (shop : ShopConfig) : Except Error Bool × List Call :=
  let customer_number := customer_number_of order
  match joomla_conn.get_shipping_address order.virtuemart_order_id with
  | .error e => (.error e, [])
  | .ok shipping_address =>
    let jtl_payment_method_id := map_payment_method order.virtuemart_paymentmethod_id
    let order_number := order_number_of order
    match resolve_customer now client order shipping_address customer_number with
    | (.error e, calls) => (.error e, calls)
    | (.ok customer_id, calls) =>
      match client.check_order_exists order_number customer_id with
      | .error e => (.error e, calls ++ [.checkOrderExists order_number customer_id])
      | .ok true => (.ok false, calls ++ [.checkOrderExists order_number customer_id])
      | .ok false =>
        let calls1 := calls ++ [.checkOrderExists order_number customer_id]
        match joomla_conn.get_order_items order.virtuemart_order_id with
        | .error e => (.error e, calls1)
        | .ok items =>
          let billing_address := create_address_object order
          let shipping_addr :=
            match shipping_address with
            | some addr => create_address_object addr
            | none => billing_address
          let jtl_order : JtlOrder :=
            { CustomerId := parse_i32_or_zero customer_id
              ExternalNumber := order_number
              CompanyId := 1
              DepartureCountry :=
                { CountryISO := "DE", CurrencyIso := "EUR", CurrencyFactor := 1 }
              BillingAddress := billing_address
              Shipmentaddress := shipping_addr
              SalesOrderDate := format_iso_date now order.created_on
              SalesOrderPaymentDetails :=
                { PaymentMethodId := jtl_payment_method_id
                  CurrencyIso := "EUR"
                  CurrencyFactor := 1 }
              SalesOrderShippingDetail :=
                { ShippingMethodId := 7
                  ShippingDate := format_iso_date now order.created_on }
              Comment := "Shop: " ++ shop.name ++ " - " ++ order.customer_note.getD ""
              LanguageIso := "DE" }
          let all_items := build_order_items shop order items
          match client.create_order jtl_order all_items with
          | .error e => (.error e, calls1 ++ [.createOrder jtl_order all_items])
          | .ok response =>
            let order_id := (response.index "Id").render
            let calls2 := calls1 ++ [.createOrder jtl_order all_items]
            let calls3 :=
              match order.order_status with
              | some status =>
                if status = "C" ∧ jtl_payment_method_id ≠ 4 then
                  calls2 ++ [.setPaymentPaid order_id]
                else calls2
              | none => calls2
            (.ok true, calls3 ++ [.setOrderHold order_id])

/-! ## Sync engine (`sync/engine.rs`)

`sync_shop` is modelled over the fetched order list (the result of
`get_orders_within_timeframe`, an oracle) and an abstract per-order
processing result `proc` (what `process_order` returns for that order).
The abort flag is a global that other threads may flip at any time, so the
value read at the k-th `should_abort()` check is an arbitrary function of
k.  Every `update_sync_stats` + `sync-stats-update` emission is recorded
in `published`; the orders handed to `process_order` are recorded in
`processed`. -/

/-- What a run of `sync_shop` produced: the returned stats, the orders that
reached the order processor, and every published stats snapshot, in order. -/
structure ShopSyncResult where
  stats : SyncStats
  processed : List VirtueMartOrder
  published : List SyncStats
deriving Repr, DecidableEq

/-- The per-order counter update of sync/engine.rs lines 240-281: exactly one
of the three counters is incremented according to the processing outcome. -/
def apply_outcome (stats : SyncStats) (res : Except Error Bool) : SyncStats :=
  match res with
  | .ok true => { stats with synced_orders := stats.synced_orders + 1 }
  | .ok false => { stats with skipped_orders := stats.skipped_orders + 1 }
  | .error _ => { stats with error_orders := stats.error_orders + 1 }

/-- The order loop of sync/engine.rs lines 199-305: check abort, process,
count, publish; `k` is the index of the next `should_abort()` read. -/
def sync_loop (abort : Nat → Bool) (proc : VirtueMartOrder → Except Error Bool) :
    List VirtueMartOrder → Nat → SyncStats → ShopSyncResult
  | [], _, stats => ⟨stats, [], []⟩
  | order :: rest, k, stats =>
    if abort k then
      let s := { stats with aborted := true }
      ⟨s, [], [s]⟩
    else
      let s1 := apply_outcome stats (proc order)
      let r := sync_loop abort proc rest (k + 1) s1
      ⟨r.stats, order :: r.processed, s1 :: r.published⟩

/-- `sync_shop` (sync/engine.rs lines 144-329): initialize stats with the
fetched total, publish, return at once on an empty fetch, otherwise run the
order loop and publish the final stats.  `init_stats` is the stats value
built at lines 177-187, with `total_orders` set from the fetch. -/
def init_stats (shop : ShopConfig) (hours now : Int)
    (orders : List VirtueMartOrder) : SyncStats :=
  { shop_id := shop.id
    total_orders := (orders.length : Int)
    synced_orders := 0
    skipped_orders := 0
    error_orders := 0
    last_sync_time := some now
    next_scheduled_run := none
    aborted := false
    sync_hours := hours }

def sync_shop (shop : ShopConfig) (hours : Int) (now : Int)
    (orders : List VirtueMartOrder) (abort : Nat → Bool)
    (proc : VirtueMartOrder → Except Error Bool) : ShopSyncResult :=
  let stats0 := init_stats shop hours now orders
  if orders.isEmpty then
    ⟨stats0, [], [stats0]⟩
  else
    let r := sync_loop abort proc orders 0 stats0
    ⟨r.stats, r.processed, stats0 :: (r.published ++ [r.stats])⟩

/-- The running count the engine logs: orders settled so far. -/
def counted (s : SyncStats) : Int :=
  s.synced_orders + s.skipped_orders + s.error_orders

/-- One notification `sync_multiple_shops` emits per shop of the batch. -/
inductive BatchEvent where
  | shopNotFound (shop_id : String)
  | shopDone (shop_id : String) (stats : SyncStats)
  | shopFailed (shop_id : String) (e : Error)
  | batchAborted
deriving Repr, DecidableEq

/-- Is this the missing-shop log event for `shop_id`? -/
def BatchEvent.isNotFoundFor (shop_id : String) : BatchEvent → Bool
  | .shopNotFound i => i == shop_id
  | _ => false

/-- `sync_multiple_shops` (sync/engine.rs lines 36-141), modelled over the
shop list of the configuration and an abstract per-shop run result `run`
(what `sync_shop` returns or fails with for that shop).  Produces the
batch result (the function only ever returns `Ok(())`), the ids of the
shops actually handed to `sync_shop`, and the per-shop notifications.
A missing id is logged and skipped without an abort check; after each
attempted shop the abort flag (`k`-th read) stops the batch. -/
def sync_multiple_shops (config : List ShopConfig)
    (run : ShopConfig → Except Error SyncStats) (abort : Nat → Bool) :
    List String → Nat → Except Error Unit × List String × List BatchEvent
  | [], _ => (.ok (), [], [])
  | shop_id :: rest, k =>
    match config.find? (fun s => s.id == shop_id) with
    | none =>
      let r := sync_multiple_shops config run abort rest k
      (r.1, r.2.1, .shopNotFound shop_id :: r.2.2)
    | some shop =>
      let ev : BatchEvent :=
        match run shop with
        | .ok stats => .shopDone shop_id stats
        | .error e => .shopFailed shop_id e
      if abort k then
        (.ok (), [shop_id], [ev, .batchAborted])
      else
        let r := sync_multiple_shops config run abort rest (k + 1)
        (r.1, shop_id :: r.2.1, ev :: r.2.2)

/-- Spec-side description of which shops a batch attempts (§4.4
`syncMultipleShops`): walk the requested ids in order, skip ids missing
from the configuration, attempt the rest, and stop after the first
attempted shop at which the abort flag is found set.  Independent of any
per-shop sync outcome. -/
def attemptedShops (config : List ShopConfig) (abort : Nat → Bool) :
    List String → Nat → List String
  | [], _ => []
  | shop_id :: rest, k =>
    match config.find? (fun s => s.id == shop_id) with
    | none => attemptedShops config abort rest k
    | some _ =>
      if abort k then [shop_id]
      else shop_id :: attemptedShops config abort rest (k + 1)

/-! ## Spec-side descriptions (for the refinement claims)

These follow the wording of the specification (§4.2 `toOrderLines`, §8,
and the two-phase `createOrder` contract of §6), to be compared against
the embedded source definitions. -/

/-- Spec §4.2: one product line, 1:1 from the source item; shop-tagged name,
fixed 19% tax, net = stored net price if present else gross / 1.19. -/
def spec_productLine (shop : ShopConfig) (item : VirtueMartOrderItem) : JtlOrderItem :=
  { Quantity := item.product_quantity
    SalesPriceGross := some item.product_final_price
    TaxRate := 19
    Name := "[" ++ shop.name ++ "] " ++ item.order_item_name
    SalesUnit := "stk"
    SalesPriceNet := some (item.product_priceWithoutTax.getD
      (item.product_final_price / (119 / 100)))
    PurchasePriceNet := none }

/-- Spec §4.2: the order carries a non-empty coupon code. -/
def spec_hasCoupon (order : VirtueMartOrder) : Bool :=
  match order.coupon_code with
  | some coupon_code => coupon_code ≠ ""
  | none => false

/-- Spec §4.2: shipment cost is present and strictly positive. -/
def spec_hasShipping (order : VirtueMartOrder) : Bool :=
  match order.order_shipment with
  | some shipping_cost => shipping_cost > 0
  | none => false

/-- Spec §4.2: the coupon line — quantity 1, tax rate 0,
name `"[<shopName>] Coupon: <code>"`, gross = net = discount amount. -/
def spec_couponLine (shop : ShopConfig) (order : VirtueMartOrder) : JtlOrderItem :=
  { Quantity := 1
    SalesPriceGross := some (order.coupon_discount.getD 0)
    TaxRate := 0
    Name := "[" ++ shop.name ++ "] Coupon: " ++ (order.coupon_code.getD "")
    SalesUnit := "stk"
    SalesPriceNet := some (order.coupon_discount.getD 0)
    PurchasePriceNet := none }

/-- Spec §4.2: the shipping line — quantity 1, tax rate 19%,
name `"[<shopName>] Shipping"`, gross = shipment cost, net = gross / 1.19. -/
def spec_shippingLine (shop : ShopConfig) (order : VirtueMartOrder) : JtlOrderItem :=
  { Quantity := 1
    SalesPriceGross := some (order.order_shipment.getD 0)
    TaxRate := 19
    Name := "[" ++ shop.name ++ "] Shipping"
    SalesUnit := "stk"
    SalesPriceNet := some (order.order_shipment.getD 0 / (119 / 100))
    PurchasePriceNet := none }

/-- Spec §4.2 `toOrderLines`: product lines first in source order, then
exactly one coupon line iff a non-empty coupon code, then exactly one
shipping line iff a strictly positive shipment cost. -/
def spec_toOrderLines (shop : ShopConfig) (order : VirtueMartOrder)
    (items : List VirtueMartOrderItem) : List JtlOrderItem :=
  items.map (spec_productLine shop) ++
    (if spec_hasCoupon order then [spec_couponLine shop order] else []) ++
    (if spec_hasShipping order then [spec_shippingLine shop order] else [])

/-- Spec §6 `createOrder` contract: the header create succeeded (transport
ok, 2xx status, parseable body) and yielded an integer `Id`. -/
def headerIdOk (h : HttpPost) : Bool :=
  match h.postOrder with
  | .error _ => false
  | .ok resp =>
    is_success resp.status &&
      (match resp.body with
       | some data => ((data.index "Id").as_i64).isSome
       | none => false)

/-- Spec §6 `createOrder` contract: the line-item attach succeeded. -/
def attachOk (h : HttpPost) : Bool :=
  match h.postItems with
  | .error _ => false
  | .ok resp => is_success resp.status

/-- Is an `Except` value an `ok`? -/
def exceptOk {ε α : Type} : Except ε α → Bool
  | .ok _ => true
  | .error _ => false

/-! ## Sample data used by the concrete witnesses -/

/-- A concrete source order with the given order id and back-reference id. -/
def sampleOrder (oid : Int) (uid : Option Int) : VirtueMartOrder :=
  { virtuemart_order_id := oid
    order_number := "VM" ++ toString oid
    created_on := "2024-01-15 10:30:00"
    order_total := 100
    company := none
    virtuemart_user_id := none
    order_status := none
    first_name := some "Max"
    last_name := some "Muster"
    phone_1 := none
    phone_2 := none
    address_1 := some "Teststr. 1"
    address_2 := none
    zip := some "12345"
    city := some "Berlin"
    email := some "max@example.com"
    virtuemart_paymentmethod_id := none
    virtuemart_shipmentmethod_id := none
    virtuemart_order_userinfo_id := uid
    customer_note := none
    order_shipment := none
    coupon_code := none
    coupon_discount := none
    virtuemart_country_id := some 81
    shop_id := none }

/-- A concrete shop configuration. -/
def sampleShop : ShopConfig := { id := "shop-1", name := "Shop One" }

/-- A concrete `now` for the date fallback. -/
def sampleNow : DateTime := ⟨2026, 1, 1, 0, 0, 0⟩

/-- A remote client whose order-exists check always answers `true`. -/
def skipClient : JtlClient :=
  { get_customer_by_id := fun _ => .ok (some (.obj [("Id", .str "42")]))
    create_customer := fun _ => .ok .null
    check_order_exists := fun _ _ => .ok true
    create_order := fun _ _ => .ok .null
    set_payment_paid := fun _ => .ok ()
    set_order_hold := fun _ => .ok () }

/-- A source database with no shipping addresses and no order items. -/
def sampleDb : JoomlaDb :=
  { get_shipping_address := fun _ => .ok none
    get_order_items := fun _ => .ok [] }

/-- Concrete per-shop stats with every field away from its reset value. -/
def sampleStats (sid : String) : SyncStats :=
  { shop_id := sid
    total_orders := 10
    synced_orders := 4
    skipped_orders := 3
    error_orders := 2
    last_sync_time := some 111
    next_scheduled_run := some 222
    aborted := true
    sync_hours := 48 }

/-- A stats store holding entries for shops "a" and "b" only. -/
def sampleStore : StatsStore :=
  fun k => if k = "a" then some (sampleStats "a")
    else if k = "b" then some (sampleStats "b") else none

/-- A per-order outcome function: order 1 syncs, everything else errors. -/
def sampleProc : VirtueMartOrder → Except Error Bool :=
  fun o => if o.virtuemart_order_id = 1 then .ok true else .error (.Api "boom")

/-! ## C8 — payment-method mapping -/

/-- C8: `map_payment_method` returns the fixed default id for `None` and for
every id outside the mapping table, and returns 4 for the mapped id 5. -/
theorem map_payment_method_spec :
    map_payment_method none = DEFAULT_PAYMENT_METHOD_ID ∧
    (∀ id, PAYMENT_METHOD_MAPPING.lookup id = none →
      map_payment_method (some id) = DEFAULT_PAYMENT_METHOD_ID) ∧
    map_payment_method (some 5) = 4 := by
  refine ⟨rfl, ?_, by decide⟩
  intro id h
  simp [map_payment_method, h]

/-- C8 witness: the unmapped id 999 and the two fixed cases. -/
theorem map_payment_method_spec_witness :
    map_payment_method none = DEFAULT_PAYMENT_METHOD_ID ∧
    map_payment_method (some 999) = DEFAULT_PAYMENT_METHOD_ID ∧
    map_payment_method (some 5) = 4 :=
  ⟨map_payment_method_spec.1,
   map_payment_method_spec.2.1 999 (by decide),
   map_payment_method_spec.2.2⟩

/-! ## C7 — ISO date formatting -/

/-- C7: `format_iso_date` renders a string parsed from the canonical
`YYYY-MM-DD HH:MM:SS` format as its RFC-3339 UTC equivalent, and renders the
current UTC time for every input that does not parse (it never fails). -/
theorem format_iso_date_spec (now : DateTime) (s : String) :
    (∀ dt, parseCanonical s = some dt → format_iso_date now s = rfc3339 dt) ∧
    (parseCanonical s = none → format_iso_date now s = rfc3339 now) := by
  constructor
  · intro dt h
    simp [format_iso_date, h]
  · intro h
    simp [format_iso_date, h]

/-- C7 witness: the documented example, and the fallback on a non-date. -/
theorem format_iso_date_spec_witness :
    format_iso_date sampleNow "2024-01-15 10:30:00" = "2024-01-15T10:30:00+00:00" ∧
    format_iso_date sampleNow "not-a-date" = rfc3339 sampleNow := by
  constructor
  · rw [(format_iso_date_spec sampleNow "2024-01-15 10:30:00").1
      ⟨2024, 1, 15, 10, 30, 0⟩ (by decide)]
    rfl
  · exact (format_iso_date_spec sampleNow "not-a-date").2 (by decide)

/-! ## C10 — resetting one shop's stats -/

/-- C10: `reset_shop_stats` zeroes the four counters and the aborted flag of
a present entry (leaving its other fields as they were), leaves the store
unchanged when the shop id is absent, and never touches other shops. -/
theorem reset_shop_stats_spec (store : StatsStore) (shop_id : String) :
    (∀ s, store shop_id = some s →
      reset_shop_stats store shop_id shop_id =
        some { s with
                total_orders := 0
                synced_orders := 0
                skipped_orders := 0
                error_orders := 0
                aborted := false }) ∧
    (store shop_id = none → reset_shop_stats store shop_id = store) ∧
    (∀ k, k ≠ shop_id → reset_shop_stats store shop_id k = store k) := by
  refine ⟨?_, ?_, ?_⟩
  · intro s h
    simp [reset_shop_stats, h]
  · intro h
    funext k
    by_cases hk : k = shop_id
    · subst hk
      simp [reset_shop_stats, h]
    · simp [reset_shop_stats, hk]
  · intro k hk
    simp [reset_shop_stats, hk]

/-- C10 witness: resetting shop "a" in a concrete store, a missing shop id,
and the frame on shop "b". -/
theorem reset_shop_stats_spec_witness :
    reset_shop_stats sampleStore "a" "a" =
      some { sampleStats "a" with
              total_orders := 0
              synced_orders := 0
              skipped_orders := 0
              error_orders := 0
              aborted := false } ∧
    reset_shop_stats sampleStore "missing" = sampleStore ∧
    reset_shop_stats sampleStore "a" "b" = sampleStore "b" :=
  ⟨(reset_shop_stats_spec sampleStore "a").1 (sampleStats "a") (by decide),
   (reset_shop_stats_spec sampleStore "missing").2.1 (by decide),
   (reset_shop_stats_spec sampleStore "a").2.2 "b" (by decide)⟩

/-! ## C5 — line-item construction -/

/-- C5: the line-item list `process_order` builds is exactly the spec's
`toOrderLines`: the product lines first in source order, then one coupon
line iff the order carries a non-empty coupon code, then one shipping line
iff the shipment cost is present and strictly positive (so with no items,
no coupon and no shipping it is empty). -/
theorem build_order_items_matches_spec (shop : ShopConfig) (order : VirtueMartOrder)
    (items : List VirtueMartOrderItem) :
    build_order_items shop order items = spec_toOrderLines shop order items := by
  unfold build_order_items spec_toOrderLines spec_productLine spec_hasCoupon
    spec_hasShipping spec_couponLine spec_shippingLine
  cases hc : order.coupon_code with
  | none =>
    cases hs : order.order_shipment with
    | none => simp
    | some shipping_cost =>
      by_cases hpos : shipping_cost > 0 <;> simp [hpos]
  | some coupon_code =>
    cases hs : order.order_shipment with
    | none =>
      by_cases hne : coupon_code ≠ "" <;> simp [hne]
    | some shipping_cost =>
      by_cases hne : coupon_code ≠ "" <;>
        by_cases hpos : shipping_cost > 0 <;>
          simp [hne, hpos, List.append_assoc]

/-! ## C9 — two-phase remote order create -/

/-- C9: `create_order` issues the line-item attach exactly when the header
create succeeded with an integer `Id` in its body, and succeeds as a whole
exactly when additionally the attach succeeded — so a header failure or a
missing/non-integer `Id` yields an error with no attach request, and an
attach failure fails the whole create. -/
theorem create_order_attach_gating (h : HttpPost) (order : JtlOrder)
    (items : List JtlOrderItem) :
    (create_order_api h order items).2 = headerIdOk h ∧
    exceptOk (create_order_api h order items).1 = (headerIdOk h && attachOk h) := by
  unfold create_order_api headerIdOk attachOk add_order_items
  cases hpo : h.postOrder with
  | error e => simp [exceptOk]
  | ok resp =>
    by_cases hst : is_success resp.status
    · cases hb : resp.body with
      | none => simp [hst, hb, exceptOk]
      | some data =>
        cases hid : (data.index "Id").as_i64 with
        | none => simp [hst, hb, hid, exceptOk]
        | some oid =>
          cases hpi : h.postItems with
          | error e2 => simp [hst, hb, hid, hpi, exceptOk]
          | ok resp2 =>
            by_cases hst2 : is_success resp2.status <;>
              simp [hst, hb, hid, hpi, hst2, exceptOk]
    · simp [hst, exceptOk]

/-! ## C1 — existing orders are skipped, never re-created -/

/-- The calls customer resolution makes never include an order create. -/
theorem resolve_customer_calls_no_create (now : DateTime) (client : JtlClient)
    (order : VirtueMartOrder) (sa : Option VirtueMartOrder) (cn : String) :
    ((resolve_customer now client order sa cn).2).all
      (fun c => !c.isCreateOrder) = true := by
  unfold resolve_customer
  split
  · rfl
  · rfl
  · dsimp only
    split <;> rfl

/-- Customer resolution always starts with the lookup call. -/
theorem resolve_customer_calls_head (now : DateTime) (client : JtlClient)
    (order : VirtueMartOrder) (sa : Option VirtueMartOrder) (cn : String) :
    ((resolve_customer now client order sa cn).2).head? =
      some (.getCustomer cn) := by
  unfold resolve_customer
  split
  · rfl
  · rfl
  · dsimp only
    split <;> rfl

/-- C1: when the remote order-exists check on the derived order number and
the resolved customer id answers `true`, `process_order` returns the
skipped outcome `Ok(false)` and its call trace contains no order-create
call. -/
theorem process_order_skips_existing (now : DateTime) (client : JtlClient)
    (db : JoomlaDb) (order : VirtueMartOrder) (shop : ShopConfig)
    (sa : Option VirtueMartOrder) (cid : String) (rcalls : List Call)
    (hship : db.get_shipping_address order.virtuemart_order_id = .ok sa)
    (hres : resolve_customer now client order sa (customer_number_of order) =
      (.ok cid, rcalls))
    (hchk : client.check_order_exists (order_number_of order) cid = .ok true) :
    (process_order now client db order shop).1 = .ok false ∧
    ((process_order now client db order shop).2).all
      (fun c => !c.isCreateOrder) = true := by
  have hrc : rcalls.all (fun c => !c.isCreateOrder) = true := by
    have h2 := resolve_customer_calls_no_create now client order sa
      (customer_number_of order)
    rw [hres] at h2
    exact h2
  unfold process_order
  rw [hship]
  simp only [hres, hchk]
  refine ⟨trivial, ?_⟩
  rw [List.all_append, hrc]
  rfl

/-- C1 witness: a concrete client whose exists-check answers `true`:
the order is skipped and no create-order call appears in the trace. -/
theorem process_order_skips_existing_witness :
    (process_order sampleNow skipClient sampleDb (sampleOrder 7 (some 3))
      sampleShop).1 = .ok false ∧
    ((process_order sampleNow skipClient sampleDb (sampleOrder 7 (some 3))
      sampleShop).2).all (fun c => !c.isCreateOrder) = true :=
  process_order_skips_existing sampleNow skipClient sampleDb
    (sampleOrder 7 (some 3)) sampleShop none "42" [.getCustomer "VM3"]
    rfl rfl rfl

/-! ## C3 — customer-number derivation -/

/-- C3 counterexample: for an order with order id 7 and no back-reference
id, the processor resolves the customer under number "VM0" — the i32
default —, not under the order id ("VM7") as the claim states. -/
theorem customer_number_fallback_cex :
    (process_order sampleNow skipClient sampleDb (sampleOrder 7 none)
      sampleShop).2.head? = some (.getCustomer "VM0") ∧
    "VM0" ≠ "VM" ++ toString (sampleOrder 7 none).virtuemart_order_id := by
  constructor
  · rfl
  · decide

/-- C3 (amended): the customer number is the fixed tag "VM" followed by the
order's back-reference id, with the numeric default 0 — not the order id —
standing in when the back-reference is absent; whenever the shipping-address
fetch succeeds, this is the number of the customer-lookup call
`process_order` opens with. -/
theorem process_order_customer_number (now : DateTime) (client : JtlClient)
    (db : JoomlaDb) (order : VirtueMartOrder) (shop : ShopConfig)
    (sa : Option VirtueMartOrder)
    (hship : db.get_shipping_address order.virtuemart_order_id = .ok sa) :
    ((process_order now client db order shop).2).head? =
      some (.getCustomer
        ("VM" ++ toString (order.virtuemart_order_userinfo_id.getD 0))) := by
  have hhead := resolve_customer_calls_head now client order sa
    (customer_number_of order)
  unfold process_order
  rw [hship]
  dsimp only
  generalize hR : resolve_customer now client order sa
    (customer_number_of order) = R
  rw [hR] at hhead
  obtain ⟨res, calls⟩ := R
  dsimp only at hhead ⊢
  cases hcl : calls with
  | nil => rw [hcl] at hhead; simp at hhead
  | cons c t =>
    rw [hcl] at hhead
    simp only [List.head?_cons, Option.some.injEq] at hhead
    subst hhead
    cases res with
    | error e => simp [customer_number_of]
    | ok cid =>
      dsimp only
      repeat' split
      all_goals simp [customer_number_of]

/-- C3 (amended) witness: the concrete no-back-reference order. -/
theorem process_order_customer_number_witness :
    ((process_order sampleNow skipClient sampleDb (sampleOrder 7 none)
      sampleShop).2).head? =
      some (.getCustomer ("VM" ++ toString
        ((sampleOrder 7 none).virtuemart_order_userinfo_id.getD 0))) :=
  process_order_customer_number sampleNow skipClient sampleDb
    (sampleOrder 7 none) sampleShop none rfl

/-! ## Engine loop lemmas -/

/-- Unfolding of the loop at an order with the abort flag read as set. -/
theorem sync_loop_cons_true (abort : Nat → Bool) (proc : VirtueMartOrder → Except Error Bool)
    (o : VirtueMartOrder) (rest : List VirtueMartOrder) (k : Nat) (s : SyncStats)
    (h : abort k = true) :
    sync_loop abort proc (o :: rest) k s =
      ⟨{ s with aborted := true }, [], [{ s with aborted := true }]⟩ := by
  simp [sync_loop, h]

/-- Unfolding of the loop at an order with the abort flag read as clear. -/
theorem sync_loop_cons_false (abort : Nat → Bool) (proc : VirtueMartOrder → Except Error Bool)
    (o : VirtueMartOrder) (rest : List VirtueMartOrder) (k : Nat) (s : SyncStats)
    (h : abort k = false) :
    sync_loop abort proc (o :: rest) k s =
      ⟨(sync_loop abort proc rest (k + 1) (apply_outcome s (proc o))).stats,
       o :: (sync_loop abort proc rest (k + 1) (apply_outcome s (proc o))).processed,
       apply_outcome s (proc o) ::
         (sync_loop abort proc rest (k + 1) (apply_outcome s (proc o))).published⟩ := by
  simp [sync_loop, h]

/-- Counting one order leaves the fetched total untouched. -/
theorem apply_outcome_total (s : SyncStats) (r : Except Error Bool) :
    (apply_outcome s r).total_orders = s.total_orders := by
  cases r with
  | error e => rfl
  | ok b => cases b <;> rfl

/-- Counting one order raises the settled count by exactly one. -/
theorem apply_outcome_counted (s : SyncStats) (r : Except Error Bool) :
    counted (apply_outcome s r) = counted s + 1 := by
  cases r with
  | error e => simp [apply_outcome, counted]; ring
  | ok b => cases b <;> (simp [apply_outcome, counted]; ring)

/-- Counting one order does not set the aborted flag. -/
theorem apply_outcome_aborted (s : SyncStats) (r : Except Error Bool) :
    (apply_outcome s r).aborted = s.aborted := by
  cases r with
  | error e => rfl
  | ok b => cases b <;> rfl

/-- The loop never changes the fetched total. -/
theorem sync_loop_total (abort : Nat → Bool) (proc : VirtueMartOrder → Except Error Bool) :
    ∀ (l : List VirtueMartOrder) (k : Nat) (s : SyncStats),
      (sync_loop abort proc l k s).stats.total_orders = s.total_orders := by
  intro l
  induction l with
  | nil => intro k s; rfl
  | cons o rest ih =>
    intro k s
    cases h : abort k with
    | true => simp [sync_loop, h]
    | false => simp [sync_loop, h, ih, apply_outcome_total]

/-- The loop's final settled count is the entry count plus the number of
orders that reached the processor. -/
theorem sync_loop_counted (abort : Nat → Bool) (proc : VirtueMartOrder → Except Error Bool) :
    ∀ (l : List VirtueMartOrder) (k : Nat) (s : SyncStats),
      counted (sync_loop abort proc l k s).stats =
        counted s + ((sync_loop abort proc l k s).processed.length : Int) := by
  intro l
  induction l with
  | nil => intro k s; simp [sync_loop]
  | cons o rest ih =>
    intro k s
    cases h : abort k with
    | true => simp [sync_loop, h, counted]
    | false =>
      rw [sync_loop_cons_false abort proc o rest k s h]
      dsimp only
      rw [ih, apply_outcome_counted]
      simp only [List.length_cons]
      push_cast
      ring

/-- The loop hands at most the fetched orders to the processor. -/
theorem sync_loop_processed_le (abort : Nat → Bool) (proc : VirtueMartOrder → Except Error Bool) :
    ∀ (l : List VirtueMartOrder) (k : Nat) (s : SyncStats),
      (sync_loop abort proc l k s).processed.length ≤ l.length := by
  intro l
  induction l with
  | nil => intro k s; simp [sync_loop]
  | cons o rest ih =>
    intro k s
    cases h : abort k with
    | true => simp [sync_loop, h]
    | false =>
      simp only [sync_loop, h]
      simpa using Nat.succ_le_succ (ih (k + 1) (apply_outcome s (proc o)))

/-- Every stats snapshot the loop publishes counts at most the entry count
plus the remaining orders, and keeps the fetched total. -/
theorem sync_loop_published (abort : Nat → Bool) (proc : VirtueMartOrder → Except Error Bool) :
    ∀ (l : List VirtueMartOrder) (k : Nat) (s : SyncStats),
      ∀ q ∈ (sync_loop abort proc l k s).published,
        counted q ≤ counted s + (l.length : Int) ∧
        q.total_orders = s.total_orders := by
  intro l
  induction l with
  | nil => intro k s q hq; simp [sync_loop] at hq
  | cons o rest ih =>
    intro k s q hq
    cases h : abort k with
    | true =>
      rw [sync_loop_cons_true abort proc o rest k s h] at hq
      simp only [List.mem_singleton] at hq
      subst hq
      refine ⟨?_, rfl⟩
      show counted s ≤ counted s + ((o :: rest).length : Int)
      simp
      omega
    | false =>
      rw [sync_loop_cons_false abort proc o rest k s h] at hq
      dsimp only at hq
      rcases List.mem_cons.mp hq with hq1 | hq2
      · subst hq1
        refine ⟨?_, apply_outcome_total s (proc o)⟩
        rw [apply_outcome_counted]
        simp only [List.length_cons]
        push_cast
        omega
      · obtain ⟨h1, h2⟩ := ih (k + 1) (apply_outcome s (proc o)) q hq2
        refine ⟨?_, h2.trans (apply_outcome_total s (proc o))⟩
        calc counted q ≤ counted (apply_outcome s (proc o)) + (rest.length : Int) := h1
          _ = counted s + 1 + (rest.length : Int) := by rw [apply_outcome_counted]
          _ ≤ counted s + ((o :: rest).length : Int) := by
              simp
              omega

/-- With the abort flag never set during the run, the loop processes every
fetched order and leaves the aborted flag as it found it. -/
theorem sync_loop_noabort (abort : Nat → Bool) (proc : VirtueMartOrder → Except Error Bool) :
    ∀ (l : List VirtueMartOrder) (k : Nat) (s : SyncStats),
      (∀ i, i < l.length → abort (k + i) = false) →
      (sync_loop abort proc l k s).processed = l ∧
      (sync_loop abort proc l k s).stats.aborted = s.aborted := by
  intro l
  induction l with
  | nil => intro k s _; exact ⟨rfl, rfl⟩
  | cons o rest ih =>
    intro k s hno
    have h0 : abort k = false := by simpa using hno 0 (by simp)
    have hrest : ∀ i, i < rest.length → abort (k + 1 + i) = false := by
      intro i hi
      have e : k + 1 + i = k + (i + 1) := by omega
      rw [e]
      exact hno (i + 1) (by simpa using Nat.succ_lt_succ hi)
    obtain ⟨h1, h2⟩ := ih (k + 1) (apply_outcome s (proc o)) hrest
    constructor
    · simp [sync_loop, h0, h1]
    · simp [sync_loop, h0, h2, apply_outcome_aborted]

/-- With the abort flag first read as set at the `j`-th check, the loop
stops there: aborted is set, exactly the first `j` orders were processed,
and exactly `j` orders were counted. -/
theorem sync_loop_abort_at (abort : Nat → Bool) (proc : VirtueMartOrder → Except Error Bool) :
    ∀ (l : List VirtueMartOrder) (j k : Nat) (s : SyncStats),
      j < l.length →
      (∀ i, i < j → abort (k + i) = false) →
      abort (k + j) = true →
      (sync_loop abort proc l k s).stats.aborted = true ∧
      (sync_loop abort proc l k s).processed = l.take j ∧
      counted (sync_loop abort proc l k s).stats = counted s + (j : Int) := by
  intro l
  induction l with
  | nil => intro j k s hj _ _; simp at hj
  | cons o rest ih =>
    intro j k s hj hb ha
    cases j with
    | zero =>
      have h0 : abort k = true := by simpa using ha
      refine ⟨?_, ?_, ?_⟩ <;> simp [sync_loop, h0, counted]
    | succ j =>
      have h0 : abort k = false := by simpa using hb 0 (Nat.succ_pos j)
      have hbrest : ∀ i, i < j → abort (k + 1 + i) = false := by
        intro i hi
        have e : k + 1 + i = k + (i + 1) := by omega
        rw [e]
        exact hb (i + 1) (by omega)
      have harest : abort (k + 1 + j) = true := by
        have e : k + 1 + j = k + (j + 1) := by omega
        rw [e]
        exact ha
      obtain ⟨h1, h2, h3⟩ := ih j (k + 1) (apply_outcome s (proc o))
        (by simpa using Nat.lt_of_succ_lt_succ hj) hbrest harest
      refine ⟨?_, ?_, ?_⟩
      · simp [sync_loop, h0, h1]
      · simp [sync_loop, h0, h2]
      · rw [sync_loop_cons_false abort proc o rest k s h0]
        dsimp only
        rw [h3, apply_outcome_counted]
        push_cast
        ring

/-- Unfolding of `sync_shop` on a non-empty fetch. -/
theorem sync_shop_cons (shop : ShopConfig) (hours now : Int) (o : VirtueMartOrder)
    (rest : List VirtueMartOrder) (abort : Nat → Bool)
    (proc : VirtueMartOrder → Except Error Bool) :
    sync_shop shop hours now (o :: rest) abort proc =
      ⟨(sync_loop abort proc (o :: rest) 0 (init_stats shop hours now (o :: rest))).stats,
       (sync_loop abort proc (o :: rest) 0 (init_stats shop hours now (o :: rest))).processed,
       init_stats shop hours now (o :: rest) ::
         ((sync_loop abort proc (o :: rest) 0 (init_stats shop hours now (o :: rest))).published ++
          [(sync_loop abort proc (o :: rest) 0
              (init_stats shop hours now (o :: rest))).stats])⟩ := by
  simp [sync_shop]

/-! ## C2 — the counter invariant -/

/-- C2: every stats snapshot `sync_shop` publishes satisfies
`synced + skipped + error ≤ total`, and when the abort flag is never read
as set during the run the final stats reach equality with the aborted flag
clear. -/
theorem sync_shop_counter_invariant (shop : ShopConfig) (hours now : Int)
    (orders : List VirtueMartOrder) (abort : Nat → Bool)
    (proc : VirtueMartOrder → Except Error Bool) :
    (∀ q ∈ (sync_shop shop hours now orders abort proc).published,
      counted q ≤ q.total_orders) ∧
    ((∀ i, i < orders.length → abort i = false) →
      counted (sync_shop shop hours now orders abort proc).stats =
        (sync_shop shop hours now orders abort proc).stats.total_orders ∧
      (sync_shop shop hours now orders abort proc).stats.aborted = false) := by
  cases orders with
  | nil =>
    constructor
    · intro q hq
      simp [sync_shop] at hq
      subst hq
      simp [init_stats, counted]
    · intro _
      exact ⟨rfl, rfl⟩
  | cons o rest =>
    constructor
    · intro q hq
      rw [sync_shop_cons] at hq
      dsimp only at hq
      rcases List.mem_cons.mp hq with h1 | h2
      · subst h1
        simp [init_stats, counted]
        omega
      · rcases List.mem_append.mp h2 with h3 | h4
        · obtain ⟨hc, ht⟩ := sync_loop_published abort proc (o :: rest) 0
            (init_stats shop hours now (o :: rest)) q h3
          rw [ht]
          calc counted q
              ≤ counted (init_stats shop hours now (o :: rest)) +
                  ((o :: rest).length : Int) := hc
            _ = (init_stats shop hours now (o :: rest)).total_orders := by
                simp [init_stats, counted]
        · simp only [List.mem_singleton] at h4
          subst h4
          rw [sync_loop_total, sync_loop_counted]
          have hl := sync_loop_processed_le abort proc (o :: rest) 0
            (init_stats shop hours now (o :: rest))
          have : counted (init_stats shop hours now (o :: rest)) = 0 := rfl
          rw [this]
          simp only [init_stats, zero_add]
          exact_mod_cast hl
    · intro hno
      have h := sync_loop_noabort abort proc (o :: rest) 0
        (init_stats shop hours now (o :: rest))
        (by intro i hi; simpa using hno i hi)
      constructor
      · rw [sync_shop_cons]
        dsimp only
        rw [sync_loop_counted, sync_loop_total, h.1]
        simp [init_stats, counted]
      · rw [sync_shop_cons]
        dsimp only
        rw [h.2]
        rfl

/-- C2 witness: two fetched orders, one synced and one errored, no abort:
every published snapshot respects the bound and the final stats reach the
total with the aborted flag clear. -/
theorem sync_shop_counter_invariant_witness :
    counted (sync_shop sampleShop 24 0 [sampleOrder 1 none, sampleOrder 2 none]
        (fun _ => false) sampleProc).stats =
      (sync_shop sampleShop 24 0 [sampleOrder 1 none, sampleOrder 2 none]
        (fun _ => false) sampleProc).stats.total_orders ∧
    (sync_shop sampleShop 24 0 [sampleOrder 1 none, sampleOrder 2 none]
        (fun _ => false) sampleProc).stats.aborted = false ∧
    counted (sync_shop sampleShop 24 0 [sampleOrder 1 none, sampleOrder 2 none]
        (fun _ => false) sampleProc).stats ≤
      (sync_shop sampleShop 24 0 [sampleOrder 1 none, sampleOrder 2 none]
        (fun _ => false) sampleProc).stats.total_orders :=
  have h := sync_shop_counter_invariant sampleShop 24 0
    [sampleOrder 1 none, sampleOrder 2 none] (fun _ => false) sampleProc
  ⟨(h.2 (by decide)).1, (h.2 (by decide)).2,
   h.1 (sync_shop sampleShop 24 0 [sampleOrder 1 none, sampleOrder 2 none]
      (fun _ => false) sampleProc).stats (by decide)⟩

/-! ## C4 — the abort check stops the loop -/

/-- C4: if the abort flag is first read as set at the check before the
`k`-th order, `sync_shop` marks the stats aborted, publishes them (they are
the last published snapshot), counts exactly the `k` orders settled before
the check, and hands exactly the first `k` orders — never a later one — to
the order processor. -/
theorem sync_shop_abort_stops (shop : ShopConfig) (hours now : Int)
    (orders : List VirtueMartOrder) (abort : Nat → Bool)
    (proc : VirtueMartOrder → Except Error Bool) (k : Nat)
    (hk : k < orders.length)
    (hbefore : ∀ i, i < k → abort i = false)
    (hat : abort k = true) :
    (sync_shop shop hours now orders abort proc).stats.aborted = true ∧
    (sync_shop shop hours now orders abort proc).processed = orders.take k ∧
    counted (sync_shop shop hours now orders abort proc).stats = (k : Int) ∧
    (sync_shop shop hours now orders abort proc).published.getLast? =
      some (sync_shop shop hours now orders abort proc).stats := by
  cases orders with
  | nil => simp at hk
  | cons o rest =>
    have h := sync_loop_abort_at abort proc (o :: rest) k 0
      (init_stats shop hours now (o :: rest)) hk
      (by intro i hi; simpa using hbefore i hi) (by simpa using hat)
    rw [sync_shop_cons]
    dsimp only
    refine ⟨h.1, h.2.1, ?_, ?_⟩
    · rw [h.2.2]
      simp [init_stats, counted]
    · rw [← List.cons_append]
      exact List.getLast?_concat _

/-- C4 witness: five fetched orders with the abort flag set from the third
check on: the stats are marked aborted, exactly the first two orders reach
the processor and are counted, and the aborted stats are the last publish. -/
theorem sync_shop_abort_stops_witness :
    (sync_shop sampleShop 24 0
      [sampleOrder 1 none, sampleOrder 2 none, sampleOrder 3 none,
       sampleOrder 4 none, sampleOrder 5 none]
      (fun i => decide (2 ≤ i)) sampleProc).stats.aborted = true ∧
    (sync_shop sampleShop 24 0
      [sampleOrder 1 none, sampleOrder 2 none, sampleOrder 3 none,
       sampleOrder 4 none, sampleOrder 5 none]
      (fun i => decide (2 ≤ i)) sampleProc).processed =
      [sampleOrder 1 none, sampleOrder 2 none, sampleOrder 3 none,
       sampleOrder 4 none, sampleOrder 5 none].take 2 ∧
    counted (sync_shop sampleShop 24 0
      [sampleOrder 1 none, sampleOrder 2 none, sampleOrder 3 none,
       sampleOrder 4 none, sampleOrder 5 none]
      (fun i => decide (2 ≤ i)) sampleProc).stats = ((2 : Nat) : Int) ∧
    (sync_shop sampleShop 24 0
      [sampleOrder 1 none, sampleOrder 2 none, sampleOrder 3 none,
       sampleOrder 4 none, sampleOrder 5 none]
      (fun i => decide (2 ≤ i)) sampleProc).published.getLast? =
      some (sync_shop sampleShop 24 0
        [sampleOrder 1 none, sampleOrder 2 none, sampleOrder 3 none,
         sampleOrder 4 none, sampleOrder 5 none]
        (fun i => decide (2 ≤ i)) sampleProc).stats :=
  sync_shop_abort_stops sampleShop 24 0
    [sampleOrder 1 none, sampleOrder 2 none, sampleOrder 3 none,
     sampleOrder 4 none, sampleOrder 5 none]
    (fun i => decide (2 ≤ i)) sampleProc 2 (by decide) (by decide) (by decide)

/-! ## C6 — the multi-shop batch is robust -/

/-- The batch always finishes with `Ok` and attempts exactly the shops the
spec-side walk names, whatever each shop's sync returns. -/
theorem sync_multiple_shops_invariants (config : List ShopConfig)
    (run : ShopConfig → Except Error SyncStats) (abort : Nat → Bool) :
    ∀ (ids : List String) (k : Nat),
      (sync_multiple_shops config run abort ids k).1 = .ok () ∧
      (sync_multiple_shops config run abort ids k).2.1 =
        attemptedShops config abort ids k := by
  intro ids
  induction ids with
  | nil => intro k; exact ⟨rfl, rfl⟩
  | cons shop_id rest ih =>
    intro k
    cases hf : config.find? (fun s => s.id == shop_id) with
    | none => simp [sync_multiple_shops, attemptedShops, hf, ih]
    | some shop =>
      cases ha : abort k with
      | true => simp [sync_multiple_shops, attemptedShops, hf, ha]
      | false => simp [sync_multiple_shops, attemptedShops, hf, ha, ih]

/-- A per-shop run that fails for shop "a" and succeeds elsewhere. -/
def sampleBatchRun : ShopConfig → Except Error SyncStats :=
  fun s => if s.id = "a" then .error (.Api "boom") else .ok (sampleStats s.id)

/-- C6: a batch run never fails — its result is `Ok` whatever happens — and
the shops it attempts are exactly the configured ones among the requested
ids up to the first abort, independently of any per-shop outcome; in the
concrete `["a", "missing", "b"]` scenario with "a" failing, both "a" and
"b" are attempted, the missing id is logged, and the batch still ends
`Ok`. -/
theorem sync_multiple_shops_robust (config : List ShopConfig)
    (run : ShopConfig → Except Error SyncStats) (abort : Nat → Bool)
    (ids : List String) :
    (sync_multiple_shops config run abort ids 0).1 = .ok () ∧
    (sync_multiple_shops config run abort ids 0).2.1 =
      attemptedShops config abort ids 0 ∧
    sync_multiple_shops [⟨"a", "Shop A"⟩, ⟨"b", "Shop B"⟩] sampleBatchRun
        (fun _ => false) ["a", "missing", "b"] 0 =
      (.ok (), ["a", "b"],
       [.shopFailed "a" (.Api "boom"), .shopNotFound "missing",
        .shopDone "b" (sampleStats "b")]) :=
  ⟨(sync_multiple_shops_invariants config run abort ids 0).1,
   (sync_multiple_shops_invariants config run abort ids 0).2,
   rfl⟩

end JtlSync

